import Mathlib

/-!
Verification development for the spending-tracker repository.

The embedding models the two components the specification covers:

* the eligibility classifier
  (`src/domain/services/eligibility_service.py`, `src/domain/models/transaction.py`);
* the file-based result cache and its decorator
  (`src/app/main.py`: `FileCache._generate_key`, `FileCache.get`, `FileCache.set`,
  `get_cache`, `cached_result`, the `/eligibility/check` endpoint and `/cache/stats`).

Modelling conventions:

* Python values that flow through the cache (arguments and cached results) are
  modelled by the inductive `PyVal`; `None` is the constructor `PyVal.none`.
  `decimal.Decimal` is modelled by its exact representation, a mantissa and a
  power-of-ten exponent, so decimal precision is preserved by value equality.
* Wall-clock time (`datetime.now()`) is a `Nat` number of seconds passed in
  explicitly; `timedelta(seconds = n)` is addition on that clock.
* The cache directory is modelled as an association list from cache keys to
  stored files (`CacheState`); `os.remove` is `CacheState.erase`, writing a
  file is `CacheState.insert` (which overwrites any entry with the same key).
* `_generate_key` pickles the dict \x7b"func": f, "args": args, "kwargs": kwargs\x7d
  and hashes the bytes with md5.  `pickle.dumps` serialises a dict in insertion
  order, so the byte stream is determined exactly by the function name, the
  positional arguments in order, and the keyword arguments in the order they
  were supplied; md5 is modelled as injective on these byte streams (its
  collision resistance is the abstraction the specification itself assumes).
  The model therefore takes the key to be that triple itself.
* A persisted file either deserialises to a well-formed entry or is corrupt;
  `pickle.load` on a corrupt file raises, modelled by `Except.error`.
* Exceptions escaping a Python function are modelled by `Except.error`;
  the `try/except Exception: pass` in `FileCache.get` is the explicit
  `match` on the result of `FileCache.get_body`.
* Disk write failures in `FileCache.set` (which has no exception handling in
  the source) are modelled by the boolean parameter `disk_ok`: when it is
  `false` the `open`/`pickle.dump` call raises `OSError`.
-/

/-- Python values that can appear as cache-call arguments or cached results
(the pickle-serialisable domain used by this program): `None`, booleans,
integers, strings, `decimal.Decimal` (exact mantissa/exponent representation),
lists, and string-keyed dicts in insertion order. -/
inductive PyVal where
  | none : PyVal
  | bool (b : Bool) : PyVal
  | int (n : Int) : PyVal
  | str (s : String) : PyVal
  | decimal (mantissa : Int) (exp : Nat) : PyVal
  | list (xs : List PyVal) : PyVal
  | dict (entries : List (String × PyVal)) : PyVal
  deriving Repr

mutual

/-- Structural equality test for `PyVal` (Python `==` on these values,
with `Decimal` compared by exact representation). -/
def PyVal.beq : PyVal → PyVal → Bool
  | .none, .none => true
  | .bool a, .bool b => a == b
  | .int a, .int b => a == b
  | .str a, .str b => a == b
  | .decimal m e, .decimal m2 e2 => m == m2 && e == e2
  | .list xs, .list ys => PyVal.beqList xs ys
  | .dict xs, .dict ys => PyVal.beqDict xs ys
  | _, _ => false

/-- Elementwise equality test for lists of `PyVal`. -/
def PyVal.beqList : List PyVal → List PyVal → Bool
  | [], [] => true
  | x :: xs, y :: ys => PyVal.beq x y && PyVal.beqList xs ys
  | _, _ => false

/-- Elementwise equality test for string-keyed dict entries. -/
def PyVal.beqDict : List (String × PyVal) → List (String × PyVal) → Bool
  | [], [] => true
  | (k, v) :: xs, (k2, v2) :: ys => k == k2 && PyVal.beq v v2 && PyVal.beqDict xs ys
  | _, _ => false

end

mutual

/-- Correctness of `PyVal.beq`: it decides propositional equality. -/
theorem PyVal.beq_iff : ∀ a b : PyVal, PyVal.beq a b = true ↔ a = b
  | .none, .none => by simp [PyVal.beq]
  | .none, .bool _ => by simp [PyVal.beq]
  | .none, .int _ => by simp [PyVal.beq]
  | .none, .str _ => by simp [PyVal.beq]
  | .none, .decimal _ _ => by simp [PyVal.beq]
  | .none, .list _ => by simp [PyVal.beq]
  | .none, .dict _ => by simp [PyVal.beq]
  | .bool _, .none => by simp [PyVal.beq]
  | .bool a, .bool b => by simp [PyVal.beq]
  | .bool _, .int _ => by simp [PyVal.beq]
  | .bool _, .str _ => by simp [PyVal.beq]
  | .bool _, .decimal _ _ => by simp [PyVal.beq]
  | .bool _, .list _ => by simp [PyVal.beq]
  | .bool _, .dict _ => by simp [PyVal.beq]
  | .int _, .none => by simp [PyVal.beq]
  | .int _, .bool _ => by simp [PyVal.beq]
  | .int a, .int b => by simp [PyVal.beq]
  | .int _, .str _ => by simp [PyVal.beq]
  | .int _, .decimal _ _ => by simp [PyVal.beq]
  | .int _, .list _ => by simp [PyVal.beq]
  | .int _, .dict _ => by simp [PyVal.beq]
  | .str _, .none => by simp [PyVal.beq]
  | .str _, .bool _ => by simp [PyVal.beq]
  | .str _, .int _ => by simp [PyVal.beq]
  | .str a, .str b => by simp [PyVal.beq]
  | .str _, .decimal _ _ => by simp [PyVal.beq]
  | .str _, .list _ => by simp [PyVal.beq]
  | .str _, .dict _ => by simp [PyVal.beq]
  | .decimal _ _, .none => by simp [PyVal.beq]
  | .decimal _ _, .bool _ => by simp [PyVal.beq]
  | .decimal _ _, .int _ => by simp [PyVal.beq]
  | .decimal _ _, .str _ => by simp [PyVal.beq]
  | .decimal m e, .decimal m2 e2 => by simp [PyVal.beq]
  | .decimal _ _, .list _ => by simp [PyVal.beq]
  | .decimal _ _, .dict _ => by simp [PyVal.beq]
  | .list _, .none => by simp [PyVal.beq]
  | .list _, .bool _ => by simp [PyVal.beq]
  | .list _, .int _ => by simp [PyVal.beq]
  | .list _, .str _ => by simp [PyVal.beq]
  | .list _, .decimal _ _ => by simp [PyVal.beq]
  | .list xs, .list ys => by
      simp only [PyVal.beq, PyVal.list.injEq]
      exact PyVal.beqList_iff xs ys
  | .list _, .dict _ => by simp [PyVal.beq]
  | .dict _, .none => by simp [PyVal.beq]
  | .dict _, .bool _ => by simp [PyVal.beq]
  | .dict _, .int _ => by simp [PyVal.beq]
  | .dict _, .str _ => by simp [PyVal.beq]
  | .dict _, .decimal _ _ => by simp [PyVal.beq]
  | .dict _, .list _ => by simp [PyVal.beq]
  | .dict xs, .dict ys => by
      simp only [PyVal.beq, PyVal.dict.injEq]
      exact PyVal.beqDict_iff xs ys

/-- Correctness of `PyVal.beqList`. -/
theorem PyVal.beqList_iff : ∀ xs ys : List PyVal, PyVal.beqList xs ys = true ↔ xs = ys
  | [], [] => by simp [PyVal.beqList]
  | [], _ :: _ => by simp [PyVal.beqList]
  | _ :: _, [] => by simp [PyVal.beqList]
  | x :: xs, y :: ys => by
      simp only [PyVal.beqList, Bool.and_eq_true, List.cons.injEq]
      exact and_congr (PyVal.beq_iff x y) (PyVal.beqList_iff xs ys)

/-- Correctness of `PyVal.beqDict`. -/
theorem PyVal.beqDict_iff : ∀ xs ys : List (String × PyVal), PyVal.beqDict xs ys = true ↔ xs = ys
  | [], [] => by simp [PyVal.beqDict]
  | [], _ :: _ => by simp [PyVal.beqDict]
  | _ :: _, [] => by simp [PyVal.beqDict]
  | (k, v) :: xs, (k2, v2) :: ys => by
      simp only [PyVal.beqDict, Bool.and_eq_true, List.cons.injEq, Prod.mk.injEq, beq_iff_eq]
      rw [PyVal.beq_iff v v2, PyVal.beqDict_iff xs ys]

end

instance : DecidableEq PyVal :=
  fun a b => decidable_of_iff _ (PyVal.beq_iff a b)

/-- A `decimal.Decimal` value, kept in its exact representation: the value is
`mantissa * 10 ^ (-(exp : Int))`.  Since `10 ^ exp > 0`, the value is positive
exactly when the mantissa is. -/
structure PyDecimal where
  mantissa : Int
  exp : Nat
  deriving Repr, DecidableEq

/-- The `Transaction` pydantic model of
`src/domain/models/transaction.py`: optional id, description (declared with
`Field(min_length=1)`), amount (`Field(gt=0)`), category, date (a timestamp),
and the `is_naffl_eligible` flag whose declared default is `true`. -/
structure Transaction where
  id : Option Int
  description : String
  amount : PyDecimal
  category : String
  date : Nat
  is_naffl_eligible : Bool
  deriving Repr, DecidableEq

/-- Pydantic validation performed when a `Transaction` is constructed:
`description` must have length at least 1 and `amount` must be strictly
positive; a violation raises a `ValidationError` (a subclass of `ValueError`).
The amount check `amount > 0` on the decimal value is equivalent to
`0 < mantissa` because the power-of-ten denominator is positive. -/
def Transaction.validate (id : Option Int) (description : String) (amount : PyDecimal)
    (category : String) (date : Nat) : Except String Transaction :=
  if description.length < 1 then
    Except.error "String should have at least 1 character"
  else if amount.mantissa ≤ 0 then
    Except.error "Input should be greater than 0"
  else
    Except.ok
      { id := id, description := description, amount := amount, category := category,
        date := date, is_naffl_eligible := true }

/-- The classifier of `src/domain/services/eligibility_service.py`:
`return transaction.category not in ["Quasi-cash", "Cash-in"]`. -/
def EligibilityService.check_unionbank_naffl (transaction : Transaction) : Bool :=
  let ineligible_categories := ["Quasi-cash", "Cash-in"]
  !(ineligible_categories.contains transaction.category)

/-- The content md5 is applied to in `FileCache._generate_key`: the pickled
dict `\x7b"func": func_name, "args": args, "kwargs": kwargs\x7d`.  Keyword
arguments appear in the order they were supplied to the call, because
`pickle.dumps` serialises a dict in insertion order. -/
structure CacheKey where
  func : String
  args : List PyVal
  kwargs : List (String × PyVal)
  deriving Repr, DecidableEq

/-- Model of `FileCache._generate_key`: the md5 hex digest is modelled as an
injective function of the pickled payload, so the key is the payload triple
itself. -/
def FileCache.generate_key (func_name : String) (args : List PyVal)
    (kwargs : List (String × PyVal)) : CacheKey :=
  { func := func_name, args := args, kwargs := kwargs }

/-- The dict persisted by `FileCache.set`:
`\x7b"value": value, "expires_at": <absolute time>\x7d`. -/
structure CacheEntry where
  value : PyVal
  expires_at : Nat
  deriving Repr, DecidableEq

/-- A persisted cache file: either it deserialises to a well-formed entry, or
it is corrupt (unreadable, or `pickle.load` / the subsequent dict accesses
raise). -/
inductive StoredFile where
  | entry (e : CacheEntry)
  | corrupt
  deriving Repr, DecidableEq

/-- Model of `pickle.load` (together with the `["expires_at"]` / `["value"]`
accesses) on a persisted cache file: corrupt contents raise. -/
def pickle_load : StoredFile → Except String CacheEntry
  | StoredFile.entry e => Except.ok e
  | StoredFile.corrupt => Except.error "UnpicklingError"

/-- The cache directory: an association list from keys (file names
`cache_<md5>.pkl`) to stored file contents. -/
abbrev CacheState := List (CacheKey × StoredFile)

/-- File lookup in the cache directory (`os.path.exists` plus reading the
file): the contents stored for the key, if any. -/
def CacheState.lookup : CacheState → CacheKey → Option StoredFile
  | [], _ => Option.none
  | (k, f) :: rest, key => if k = key then Option.some f else CacheState.lookup rest key

/-- Model of `os.remove` on the file for a key. -/
def CacheState.erase : CacheState → CacheKey → CacheState
  | [], _ => []
  | (k, f) :: rest, key =>
      if k = key then CacheState.erase rest key else (k, f) :: CacheState.erase rest key

/-- Writing the file for a key (`open(path, "wb")` then `pickle.dump`):
overwrites any existing entry for that key. -/
def CacheState.insert (st : CacheState) (key : CacheKey) (f : StoredFile) : CacheState :=
  (key, f) :: CacheState.erase st key

/-- The body of `FileCache.get` without its `try/except`: look the key up; on
a present file, deserialise (which may raise), then return the value if
`now < expires_at`, and otherwise remove the file and fall through to `None`.
A missing file also falls through to `None`. -/
def FileCache.get_body (st : CacheState) (now : Nat) (key : CacheKey) :
    Except String (PyVal × CacheState) :=
  match CacheState.lookup st key with
  | Option.none => Except.ok (PyVal.none, st)
  | Option.some file =>
      match pickle_load file with
      | Except.error e => Except.error e
      | Except.ok cached_data =>
          if now < cached_data.expires_at then
            Except.ok (cached_data.value, st)
          else
            Except.ok (PyVal.none, CacheState.erase st key)

/-- Model of `FileCache.get`: the body wrapped in `try/except Exception:
pass`, after which the function returns `None`.  The Python return type is
`Any | None`, so a miss is indistinguishable from a stored `None`. -/
def FileCache.get (st : CacheState) (now : Nat) (func_name : String) (args : List PyVal)
    (kwargs : List (String × PyVal)) : PyVal × CacheState :=
  match FileCache.get_body st now (FileCache.generate_key func_name args kwargs) with
  | Except.ok r => r
  | Except.error _ => (PyVal.none, st)

/-- Model of `FileCache.set`: derive the key and persist
`\x7b"value": value, "expires_at": datetime.now() + timedelta(seconds=300)\x7d`.
The source method has no ttl parameter at all and hard-codes the 300-second
lifetime; it also has no exception handling, so a failing disk write
(`disk_ok = false`) raises `OSError` to the caller. -/
def FileCache.set (disk_ok : Bool) (st : CacheState) (now : Nat) (value : PyVal)
    (func_name : String) (args : List PyVal) (kwargs : List (String × PyVal)) :
    Except String CacheState :=
  let key := FileCache.generate_key func_name args kwargs
  let cached_data : CacheEntry := { value := value, expires_at := now + 300 }
  if disk_ok then
    Except.ok (CacheState.insert st key (StoredFile.entry cached_data))
  else
    Except.error "OSError"

/-- Model of the `cached_result(ttl_seconds)` decorator's wrapper around a
function `func`: get; if the cached value `is not None`, return it; otherwise
compute, `set` the result (a raised exception propagates, so the `return
result` line is not reached in that case), and return the result.  The
`ttl_seconds` argument is accepted and never used, exactly as in the source. -/
def cached_result (ttl_seconds : Nat) (func : List PyVal → List (String × PyVal) → PyVal)
    (func_name : String) (disk_ok : Bool) (st : CacheState) (now : Nat)
    (args : List PyVal) (kwargs : List (String × PyVal)) :
    Except String (PyVal × CacheState) :=
  let r := FileCache.get st now func_name args kwargs
  let cached_value := r.1
  if cached_value ≠ PyVal.none then
    Except.ok (cached_value, r.2)
  else
    let result := func args kwargs
    match FileCache.set disk_ok r.2 now result func_name args kwargs with
    | Except.ok st2 => Except.ok (result, st2)
    | Except.error e => Except.error e

/-- The application settings relevant to caching (`Settings` in
`src/app/main.py`): the backend selector and the configured ttl
(`cache_ttl_seconds`, which nothing ever reads). -/
structure Settings where
  cache_backend : String
  cache_ttl_seconds : Nat
  deriving Repr, DecidableEq

/-- The single cache object a backend lookup can produce: the module-global
`file_cache`. -/
inductive CacheHandle where
  | file_cache
  deriving Repr, DecidableEq

/-- Model of `get_cache(settings)`: raises `NotImplementedError` for the
"redis" backend and returns the global file cache otherwise.  No endpoint or
decorator in the source ever calls this function. -/
def get_cache (settings : Settings) : Except String CacheHandle :=
  if settings.cache_backend = "redis" then
    Except.error "Redis caching not yet implemented"
  else
    Except.ok CacheHandle.file_cache

/-- Model of the `total_entries` field of the `/cache/stats` endpoint: the
number of `cache_*` files in the cache directory. -/
def cache_stats (st : CacheState) : Nat :=
  st.length

/-- The body of the `/eligibility/check` endpoint, parametrised by the
classifier it calls: construct a `Transaction` (running pydantic validation),
then classify it; a `ValueError` from validation is caught and surfaced as an
HTTP 400 error.  The result pairs the transaction with `is_eligible`. -/
def check_eligibility_with (classify : Transaction → Bool) (description : String)
    (amount : PyDecimal) (category : String) (now : Nat) :
    Except (Nat × String) (Transaction × Bool) :=
  match Transaction.validate Option.none description amount category now with
  | Except.error e => Except.error (400, e)
  | Except.ok transaction =>
      let is_eligible := classify transaction
      Except.ok (transaction, is_eligible)

/-- The `/eligibility/check` endpoint body as written: it calls
`EligibilityService.check_unionbank_naffl`. -/
def check_eligibility (description : String) (amount : PyDecimal) (category : String)
    (now : Nat) : Except (Nat × String) (Transaction × Bool) :=
  check_eligibility_with EligibilityService.check_unionbank_naffl
    description amount category now

/-- Looking up a key immediately after inserting a file for it yields that
file. -/
theorem CacheState.lookup_insert (st : CacheState) (key : CacheKey) (f : StoredFile) :
    CacheState.lookup (CacheState.insert st key f) key = Option.some f := by
  simp [CacheState.insert, CacheState.lookup]

/-- After erasing a key, looking it up yields nothing. -/
theorem CacheState.lookup_erase (st : CacheState) (key : CacheKey) :
    CacheState.lookup (CacheState.erase st key) key = Option.none := by
  induction st with
  | nil => rfl
  | cons hd tl ih =>
      obtain ⟨k, f⟩ := hd
      by_cases h : k = key
      · simpa [CacheState.erase, h] using ih
      · simp [CacheState.erase, CacheState.lookup, h, ih]

/-- Erasing never grows the directory. -/
theorem CacheState.length_erase_le (st : CacheState) (key : CacheKey) :
    (CacheState.erase st key).length ≤ st.length := by
  induction st with
  | nil => simp [CacheState.erase]
  | cons hd tl ih =>
      obtain ⟨k, f⟩ := hd
      by_cases h : k = key
      · simp only [CacheState.erase, h, if_pos, List.length_cons]
        exact Nat.le_succ_of_le ih
      · simpa [CacheState.erase, h] using ih

/-- Erasing a key that is present strictly shrinks the directory. -/
theorem CacheState.length_erase_lt (st : CacheState) (key : CacheKey) (f : StoredFile)
    (h : CacheState.lookup st key = Option.some f) :
    (CacheState.erase st key).length < st.length := by
  induction st with
  | nil => simp [CacheState.lookup] at h
  | cons hd tl ih =>
      obtain ⟨k, v⟩ := hd
      by_cases hk : k = key
      · simp only [CacheState.erase, hk, if_pos, List.length_cons]
        exact Nat.lt_succ_of_le (CacheState.length_erase_le tl key)
      · simp only [CacheState.lookup, hk, if_neg, ite_false] at h
        simpa [CacheState.erase, hk] using Nat.succ_lt_succ (ih h)

/-- Erasing a key twice is the same as erasing it once. -/
theorem CacheState.erase_erase (st : CacheState) (key : CacheKey) :
    CacheState.erase (CacheState.erase st key) key = CacheState.erase st key := by
  induction st with
  | nil => rfl
  | cons hd tl ih =>
      obtain ⟨k, f⟩ := hd
      by_cases h : k = key
      · simp [CacheState.erase, h, ih]
      · simp [CacheState.erase, h, ih]

/-- C1: the classifier returns `false` exactly on the category strings
"Quasi-cash" and "Cash-in" (case-sensitive, exact match) and `true` on every
other category string; it is a pure total function of the transaction. -/
theorem check_unionbank_naffl_false_iff_ineligible (t : Transaction) :
    (EligibilityService.check_unionbank_naffl t = false ↔
      (t.category = "Quasi-cash" ∨ t.category = "Cash-in"))
    ∧ (EligibilityService.check_unionbank_naffl t = true ↔
      ¬(t.category = "Quasi-cash" ∨ t.category = "Cash-in")) := by
  unfold EligibilityService.check_unionbank_naffl
  simp [List.contains]
  tauto

/-- C1 witness: the classifier evaluated through the theorem at the spec's
"Gift card" scenario. -/
theorem check_unionbank_naffl_false_iff_ineligible_witness :
    EligibilityService.check_unionbank_naffl
      { id := Option.none, description := "Gift card", amount := { mantissa := 5000, exp := 2 },
        category := "Quasi-cash", date := 0, is_naffl_eligible := true } = false :=
  (check_unionbank_naffl_false_iff_ineligible _).1.mpr (Or.inl rfl)

/-- C3 counterexample: supplying the same keyword arguments in a different
order changes the pickled payload (dicts pickle in insertion order) and hence
the cache key, so key derivation is not keyword-argument-order independent. -/
theorem generate_key_kwarg_order_cex :
    FileCache.generate_key "check_eligibility" [] [("a", PyVal.int 1), ("b", PyVal.int 2)] ≠
      FileCache.generate_key "check_eligibility" [] [("b", PyVal.int 2), ("a", PyVal.int 1)] := by
  decide

/-- C3 amended: the key determines and is determined by the operation name,
the positional arguments in order, and the keyword arguments in the order
supplied; so equal calls with keyword arguments in the same order collide,
and changing any single argument (or the supply order of keyword arguments)
changes the key. -/
theorem generate_key_eq_iff (f1 f2 : String) (args1 args2 : List PyVal)
    (kwargs1 kwargs2 : List (String × PyVal)) :
    FileCache.generate_key f1 args1 kwargs1 = FileCache.generate_key f2 args2 kwargs2 ↔
      (f1 = f2 ∧ args1 = args2 ∧ kwargs1 = kwargs2) := by
  simp [FileCache.generate_key, CacheKey.mk.injEq]

/-- C3 witness: the amended theorem applied to two identical concrete calls. -/
theorem generate_key_eq_iff_witness :
    FileCache.generate_key "check_eligibility" [PyVal.str "Food", PyVal.decimal 100 1] [] =
      FileCache.generate_key "check_eligibility" [PyVal.str "Food", PyVal.decimal 100 1] [] :=
  (generate_key_eq_iff "check_eligibility" "check_eligibility"
    [PyVal.str "Food", PyVal.decimal 100 1] [PyVal.str "Food", PyVal.decimal 100 1]
    [] []).mpr ⟨rfl, rfl, rfl⟩

/-- C2 counterexample: a round trip with a requested ttl of 600 seconds fails
before that ttl has elapsed, because `set` persists a fixed 300-second expiry
(the source `set` has no ttl parameter at all): `set` at time 0 stores
`expires_at = 300`, and a `get` at time 400 (before the requested 600 s)
returns absent instead of the stored value. -/
theorem roundtrip_requested_ttl_cex :
    FileCache.set true [] 0 (PyVal.str "yes") "check_eligibility" [PyVal.str "Food"] [] =
      Except.ok [(FileCache.generate_key "check_eligibility" [PyVal.str "Food"] [],
        StoredFile.entry { value := PyVal.str "yes", expires_at := 300 })]
    ∧ (400 : Nat) < 600
    ∧ (FileCache.get [(FileCache.generate_key "check_eligibility" [PyVal.str "Food"] [],
        StoredFile.entry { value := PyVal.str "yes", expires_at := 300 })] 400
        "check_eligibility" [PyVal.str "Food"] []).1 = PyVal.none
    ∧ PyVal.none ≠ PyVal.str "yes" :=
  ⟨rfl, by decide, rfl, by decide⟩

/-- C2 amended: a `set` followed by a `get` for the same operation name and
arguments returns exactly the stored value, unchanged (including decimal
precision), provided less than 300 seconds — the fixed expiry window the code
applies, irrespective of any requested ttl — have elapsed. -/
theorem roundtrip_before_fixed_ttl (st : CacheState) (now : Nat) (v : PyVal)
    (func_name : String) (args : List PyVal) (kwargs : List (String × PyVal))
    (elapsed : Nat) (st2 : CacheState) (h : elapsed < 300)
    (hset : FileCache.set true st now v func_name args kwargs = Except.ok st2) :
    (FileCache.get st2 (now + elapsed) func_name args kwargs).1 = v := by
  have hst2 : CacheState.insert st (FileCache.generate_key func_name args kwargs)
      (StoredFile.entry { value := v, expires_at := now + 300 }) = st2 := by
    simpa [FileCache.set] using hset
  subst hst2
  unfold FileCache.get FileCache.get_body
  rw [CacheState.lookup_insert]
  simp [pickle_load, Nat.add_lt_add_iff_left, h]

/-- C2 witness: the amended round trip evaluated on the spec's scenario, 100
seconds after storing "yes". -/
theorem roundtrip_before_fixed_ttl_witness :
    (FileCache.get [(FileCache.generate_key "check_eligibility" [PyVal.str "Food"] [],
        StoredFile.entry { value := PyVal.str "yes", expires_at := 300 })] 100
        "check_eligibility" [PyVal.str "Food"] []).1 = PyVal.str "yes" :=
  roundtrip_before_fixed_ttl [] 0 (PyVal.str "yes") "check_eligibility" [PyVal.str "Food"] []
    100
    [(FileCache.generate_key "check_eligibility" [PyVal.str "Food"] [],
      StoredFile.entry { value := PyVal.str "yes", expires_at := 300 })]
    (by decide) rfl

/-- C4 (code bug): `set` persists `expires_at = now + 300` — a fixed constant,
the source `set` having no ttl parameter — while overwriting any existing
entry for the key, and the `cached_result` wrapper behaves identically for any
two configured `ttl_seconds` values: the decorator discards its argument
instead of passing it through to `set`. -/
theorem set_fixed_expiry_ignores_ttl (st : CacheState) (now : Nat) (v : PyVal)
    (func_name : String) (args : List PyVal) (kwargs : List (String × PyVal))
    (ttl1 ttl2 : Nat) (func : List PyVal → List (String × PyVal) → PyVal) (disk_ok : Bool) :
    FileCache.set true st now v func_name args kwargs =
      Except.ok (CacheState.insert st (FileCache.generate_key func_name args kwargs)
        (StoredFile.entry { value := v, expires_at := now + 300 }))
    ∧ CacheState.lookup (CacheState.insert st (FileCache.generate_key func_name args kwargs)
        (StoredFile.entry { value := v, expires_at := now + 300 }))
        (FileCache.generate_key func_name args kwargs) =
      Option.some (StoredFile.entry { value := v, expires_at := now + 300 })
    ∧ cached_result ttl1 func func_name disk_ok st now args kwargs =
      cached_result ttl2 func func_name disk_ok st now args kwargs :=
  ⟨rfl, CacheState.lookup_insert st _ _, rfl⟩

/-- C5: a `get` at or after the stored expiry returns absent and deletes the
persisted entry, after which a lookup for the key finds nothing and `stats`
counts strictly fewer entries; and a `get` for a key with no entry returns
absent and leaves the store unchanged. -/
theorem get_expired_deletes_and_absent (st : CacheState) (now : Nat)
    (func_name : String) (args : List PyVal) (kwargs : List (String × PyVal)) (e : CacheEntry)
    (hfound : CacheState.lookup st (FileCache.generate_key func_name args kwargs) =
      Option.some (StoredFile.entry e))
    (hexpired : e.expires_at ≤ now) :
    FileCache.get st now func_name args kwargs =
      (PyVal.none, CacheState.erase st (FileCache.generate_key func_name args kwargs))
    ∧ CacheState.lookup (CacheState.erase st (FileCache.generate_key func_name args kwargs))
        (FileCache.generate_key func_name args kwargs) = Option.none
    ∧ cache_stats (CacheState.erase st (FileCache.generate_key func_name args kwargs)) <
        cache_stats st
    ∧ ∀ (st2 : CacheState) (now2 : Nat) (f2 : String) (args2 : List PyVal)
        (kwargs2 : List (String × PyVal)),
        CacheState.lookup st2 (FileCache.generate_key f2 args2 kwargs2) = Option.none →
        FileCache.get st2 now2 f2 args2 kwargs2 = (PyVal.none, st2) := by
  refine ⟨?_, CacheState.lookup_erase st _, ?_, ?_⟩
  · unfold FileCache.get FileCache.get_body
    rw [hfound]
    simp [pickle_load, Nat.not_lt.mpr hexpired]
  · exact CacheState.length_erase_lt st _ _ hfound
  · intro st2 now2 f2 args2 kwargs2 h2
    unfold FileCache.get FileCache.get_body
    rw [h2]

/-- C5 witness: the theorem evaluated on a one-entry store read 100 seconds
after its expiry: the lazily deleted entry no longer contributes to the entry
count. -/
theorem get_expired_deletes_and_absent_witness :
    cache_stats (CacheState.erase
        [(FileCache.generate_key "check_eligibility" [PyVal.str "Food"] [],
          StoredFile.entry { value := PyVal.str "yes", expires_at := 300 })]
        (FileCache.generate_key "check_eligibility" [PyVal.str "Food"] [])) <
      cache_stats [(FileCache.generate_key "check_eligibility" [PyVal.str "Food"] [],
        StoredFile.entry { value := PyVal.str "yes", expires_at := 300 })] :=
  (get_expired_deletes_and_absent
    [(FileCache.generate_key "check_eligibility" [PyVal.str "Food"] [],
      StoredFile.entry { value := PyVal.str "yes", expires_at := 300 })]
    400 "check_eligibility" [PyVal.str "Food"] []
    { value := PyVal.str "yes", expires_at := 300 } (by decide) (by decide)).2.2.1

/-- C6: on a persisted entry whose deserialisation fails, the unguarded body
of `get` raises, but `get` itself (the `try/except Exception: pass`) returns
absent with the store unchanged: corruption is treated as a cache miss and
never surfaced to the caller. -/
theorem get_corrupt_entry_is_miss (st : CacheState) (now : Nat)
    (func_name : String) (args : List PyVal) (kwargs : List (String × PyVal))
    (hcorrupt : CacheState.lookup st (FileCache.generate_key func_name args kwargs) =
      Option.some StoredFile.corrupt) :
    FileCache.get_body st now (FileCache.generate_key func_name args kwargs) =
      Except.error "UnpicklingError"
    ∧ FileCache.get st now func_name args kwargs = (PyVal.none, st) := by
  constructor
  · unfold FileCache.get_body
    rw [hcorrupt]
    rfl
  · unfold FileCache.get FileCache.get_body
    rw [hcorrupt]
    rfl

/-- C6 witness: the theorem evaluated on a store holding one corrupt file. -/
theorem get_corrupt_entry_is_miss_witness :
    FileCache.get [(FileCache.generate_key "check_eligibility" [PyVal.str "Food"] [],
        StoredFile.corrupt)] 0 "check_eligibility" [PyVal.str "Food"] [] =
      (PyVal.none,
        [(FileCache.generate_key "check_eligibility" [PyVal.str "Food"] [],
          StoredFile.corrupt)]) :=
  (get_corrupt_entry_is_miss
    [(FileCache.generate_key "check_eligibility" [PyVal.str "Food"] [], StoredFile.corrupt)]
    0 "check_eligibility" [PyVal.str "Food"] [] (by decide)).2

/-- A string has length zero exactly when it is the empty string. -/
theorem string_length_eq_zero_iff (s : String) : s.length = 0 ↔ s = "" := by
  obtain ⟨data⟩ := s
  constructor
  · intro h
    have hd : data = [] := List.length_eq_zero.mp h
    subst hd
    rfl
  · intro h
    rw [h]
    decide

/-- C7 (code bug): with `cache_backend = "redis"` configured, `get_cache`
would raise `NotImplementedError` — but no endpoint or decorator in the
source ever calls `get_cache`; every cache operation goes through the
module-global `file_cache` directly (the `cached_result` wrapper does not
take the settings at all), so under the redis configuration a cache operation
silently succeeds against the default file backend instead of raising. -/
theorem redis_backend_not_enforced :
    get_cache { cache_backend := "redis", cache_ttl_seconds := 300 } =
      Except.error "Redis caching not yet implemented"
    ∧ cached_result 300 (fun _ _ => PyVal.str "result") "check_eligibility" true [] 0
        [PyVal.str "x"] [] =
      Except.ok (PyVal.str "result",
        [(FileCache.generate_key "check_eligibility" [PyVal.str "x"] [],
          StoredFile.entry { value := PyVal.str "result", expires_at := 300 })]) :=
  ⟨rfl, rfl⟩

/-- C8: an input with non-positive amount or empty description fails pydantic
validation and is rejected with an HTTP 400 user error whose outcome does not
depend on the classifier (validation runs before any eligibility logic); an
input with strictly positive amount and non-empty description passes
validation and is classified. -/
theorem check_eligibility_validation (description : String) (amount : PyDecimal)
    (category : String) (now : Nat) :
    ((amount.mantissa ≤ 0 ∨ description = "") →
      ∀ classify : Transaction → Bool, ∃ msg : String,
        check_eligibility_with classify description amount category now =
          Except.error (400, msg))
    ∧ (0 < amount.mantissa → description ≠ "" →
      check_eligibility description amount category now =
        Except.ok
          ({ id := Option.none, description := description, amount := amount,
             category := category, date := now, is_naffl_eligible := true },
           EligibilityService.check_unionbank_naffl
             { id := Option.none, description := description, amount := amount,
               category := category, date := now, is_naffl_eligible := true })) := by
  constructor
  · intro h classify
    unfold check_eligibility_with Transaction.validate
    by_cases hd : description.length < 1
    · exact ⟨"String should have at least 1 character", by simp [hd]⟩
    · have ha : amount.mantissa ≤ 0 := by
        rcases h with h | h
        · exact h
        · exact absurd (by simp [h, string_length_eq_zero_iff]) hd
      exact ⟨"Input should be greater than 0", by simp [hd, ha]⟩
  · intro ha hd
    unfold check_eligibility check_eligibility_with Transaction.validate
    have hlen : ¬ description.length < 1 := by
      rw [Nat.lt_one_iff, string_length_eq_zero_iff]
      exact hd
    simp [hlen, Int.not_le.mpr ha]

/-- C8 witness: the theorem applied to an empty description (any classifier):
rejected with a 400 user error. -/
theorem check_eligibility_validation_witness :
    ∃ msg : String,
      check_eligibility_with (fun _ => true) "" { mantissa := 10000, exp := 2 } "Food" 0 =
        Except.error (400, msg) :=
  (check_eligibility_validation "" { mantissa := 10000, exp := 2 } "Food" 0).1
    (Or.inr rfl) (fun _ => true)

/-- C9 counterexample: on a cache miss with a failing disk write, the wrapper
propagates the `OSError` raised inside `set` — the `return result` line is
never reached — so the successfully computed value "computed" is not
returned to the caller, contrary to the claim. -/
theorem set_failure_masks_result_cex :
    cached_result 300 (fun _ _ => PyVal.str "computed") "check_eligibility" false [] 0
      [PyVal.str "x"] [] = Except.error "OSError" :=
  rfl

/-- C9 amended: when persisting fails during `set`, the failure propagates
(the entry is not persisted and the exception escapes `set`), and the
`cached_result` wrapper also fails with that exception instead of returning
the computed value: the cache write failure does mask the computation's
result. -/
theorem set_failure_propagates (ttl_seconds : Nat) (func_name : String)
    (func : List PyVal → List (String × PyVal) → PyVal) (st : CacheState) (now : Nat)
    (args : List PyVal) (kwargs : List (String × PyVal))
    (hmiss : (FileCache.get st now func_name args kwargs).1 = PyVal.none) :
    FileCache.set false ((FileCache.get st now func_name args kwargs).2) now
        (func args kwargs) func_name args kwargs = Except.error "OSError"
    ∧ cached_result ttl_seconds func func_name false st now args kwargs =
      Except.error "OSError" := by
  constructor
  · rfl
  · unfold cached_result
    simp [hmiss, FileCache.set]

/-- C9 witness: the amended theorem evaluated on an empty store at time 5. -/
theorem set_failure_propagates_witness :
    FileCache.set false ((FileCache.get [] 5 "check_eligibility" [PyVal.int 7] []).2) 5
        (PyVal.str "computed") "check_eligibility" [PyVal.int 7] [] = Except.error "OSError"
    ∧ cached_result 300 (fun _ _ => PyVal.str "computed") "check_eligibility" false [] 5
        [PyVal.int 7] [] = Except.error "OSError" :=
  set_failure_propagates 300 "check_eligibility" (fun _ _ => PyVal.str "computed") [] 5
    [PyVal.int 7] [] rfl

/-- C10: the wrapper distinguishes a hit from a miss by comparing the stored
value to `None`, so when the wrapped operation computes `None`, even a fresh
unexpired cached entry for the key is never served: `get` hands back the
stored `None`, the wrapper treats it as a miss, recomputes, and re-persists —
behaving exactly as it does when the entry is absent. -/
theorem none_result_recomputed (ttl_seconds : Nat) (func_name : String)
    (func : List PyVal → List (String × PyVal) → PyVal) (st : CacheState) (now : Nat)
    (args : List PyVal) (kwargs : List (String × PyVal)) (expiry : Nat)
    (hstored : CacheState.lookup st (FileCache.generate_key func_name args kwargs) =
      Option.some (StoredFile.entry { value := PyVal.none, expires_at := expiry }))
    (hfresh : now < expiry)
    (hnone : func args kwargs = PyVal.none) :
    (FileCache.get st now func_name args kwargs).1 = PyVal.none
    ∧ cached_result ttl_seconds func func_name true st now args kwargs =
      Except.ok (func args kwargs,
        CacheState.insert st (FileCache.generate_key func_name args kwargs)
          (StoredFile.entry { value := func args kwargs, expires_at := now + 300 }))
    ∧ cached_result ttl_seconds func func_name true st now args kwargs =
      cached_result ttl_seconds func func_name true
        (CacheState.erase st (FileCache.generate_key func_name args kwargs)) now args
        kwargs := by
  have hget : FileCache.get st now func_name args kwargs = (PyVal.none, st) := by
    unfold FileCache.get FileCache.get_body
    rw [hstored]
    simp [pickle_load, hfresh]
  have hget2 : FileCache.get
      (CacheState.erase st (FileCache.generate_key func_name args kwargs)) now
      func_name args kwargs =
      (PyVal.none, CacheState.erase st (FileCache.generate_key func_name args kwargs)) := by
    unfold FileCache.get FileCache.get_body
    rw [CacheState.lookup_erase]
  refine ⟨by rw [hget], ?_, ?_⟩
  · unfold cached_result
    rw [hget]
    simp [FileCache.set]
  · unfold cached_result
    rw [hget, hget2]
    simp [FileCache.set, CacheState.insert, CacheState.erase_erase]

/-- C10 witness: a fresh entry storing `None` (expiry 200, read at 50) is not
served; the operation is recomputed and re-persisted with a new expiry. -/
theorem none_result_recomputed_witness :
    cached_result 300 (fun _ _ => PyVal.none) "check_eligibility" true
      [(FileCache.generate_key "check_eligibility" [PyVal.str "Food"] [],
        StoredFile.entry { value := PyVal.none, expires_at := 200 })] 50
      [PyVal.str "Food"] [] =
    Except.ok (PyVal.none,
      CacheState.insert
        [(FileCache.generate_key "check_eligibility" [PyVal.str "Food"] [],
          StoredFile.entry { value := PyVal.none, expires_at := 200 })]
        (FileCache.generate_key "check_eligibility" [PyVal.str "Food"] [])
        (StoredFile.entry { value := PyVal.none, expires_at := 350 })) :=
  (none_result_recomputed 300 "check_eligibility" (fun _ _ => PyVal.none)
    [(FileCache.generate_key "check_eligibility" [PyVal.str "Food"] [],
      StoredFile.entry { value := PyVal.none, expires_at := 200 })]
    50 [PyVal.str "Food"] [] 200 (by decide) (by decide) rfl).2.1
